import Mathlib

/-!
# Host reset recovery (`host_reset_recovery.cpp`)

A shallow embedding of the post-restart recovery checker.  The program waits
until the chassis power-on marker file is gone, reads the host's last
`BootProgress` property over D-Bus, and creates a `HostNotRunning` error log
when that property is anything other than `Unspecified`.

Everything the program observes from outside is collected in a `World`; every
effect it performs is recorded, in order, as an `Event` of a trace.  C++
exceptions are values of `Exception` carried in `Except`.
-/

namespace HostResetRecovery

/-! ## Constants of the source -/

def HOST_STATE_SVC : String := "xyz.openbmc_project.State.Host"
def HOST_STATE_PATH : String := "/xyz/openbmc_project/state/host0"
def PROPERTY_INTERFACE : String := "org.freedesktop.DBus.Properties"
def BOOT_STATE_INTF : String := "xyz.openbmc_project.State.Boot.Progress"
def BOOT_PROGRESS_PROP : String := "BootProgress"

def LOGGING_SVC : String := "xyz.openbmc_project.Logging"
def LOGGING_PATH : String := "/xyz/openbmc_project/logging"
def LOGGING_CREATE_INTF : String := "xyz.openbmc_project.Logging.Create"

/-! ## Exceptions -/

/-- Dynamic type of a thrown object.  Every class here derives from
`std::exception`; the `sdbusplus` constructor stands for
`sdbusplus::exception::exception` and all classes derived from it. -/
inductive ExcType where
  | std_exception
  | std_runtime_error
  | sdbusplus (cls : String)
  | std_other (cls : String)
  deriving DecidableEq

/-- Whether `catch (const sdbusplus::exception::exception&)` matches. -/
def ExcType.isSdbusplus : ExcType → Bool
  | .sdbusplus _ => true
  | _ => false

/-- A thrown object: its dynamic type and what `what()` returns. -/
structure Exception where
  type : ExcType
  what : String
  deriving DecidableEq

/-- The text `std::exception::what()` gives for an object whose dynamic type
is exactly `std::exception` (the libstdc++ value). -/
def std_exception_what : String := "std::exception"

/-- The object thrown by `throw e;` when `e` has static type `std::exception&`:
the exception object is copy-initialised from the static type, so only the
`std::exception` base subobject survives. -/
def throwByValue (e : Exception) : Exception :=
  if e.type = ExcType.std_exception then e
  else { type := ExcType.std_exception, what := std_exception_what }

/-- The object thrown by `throw std::runtime_error(msg)`. -/
def runtime_error (msg : String) : Exception :=
  { type := ExcType.std_runtime_error, what := msg }

/-! ## Effects -/

/-- Levels of `phosphor::logging::level` used by the program. -/
inductive level where
  | DEBUG
  | INFO
  | ERR
  deriving DecidableEq

/-- One `entry(fmt, arg)` of a log call: the format string and its argument. -/
structure Entry where
  fmt : String
  arg : String
  deriving DecidableEq

def entry (fmt arg : String) : Entry := { fmt := fmt, arg := arg }

/-- Values appended to a D-Bus method call. -/
inductive Arg where
  | str (s : String)
  | dict (m : List (String × String))
  deriving DecidableEq

/-- A D-Bus method call message: destination, object, interface, member and
the appended arguments. -/
structure MethodCall where
  service : String
  path : String
  interface : String
  member : String
  args : List Arg
  deriving DecidableEq

def new_method_call (service path interface member : String) : MethodCall :=
  { service := service, path := path, interface := interface, member := member, args := [] }

def MethodCall.append (m : MethodCall) (args : List Arg) : MethodCall :=
  { m with args := m.args ++ args }

/-- The observable steps of a run, in program order. -/
inductive Event where
  | ifstream_good (good : Bool)
  | log (lvl : level) (msg : String) (entries : List Entry)
  | sleep_for (seconds : Nat)
  | call (m : MethodCall)
  deriving DecidableEq

/-- Severity levels of `xyz.openbmc_project.Logging.Entry`. -/
inductive EntryLevel where
  | Emergency
  | Alert
  | Critical
  | Error
  | Warning
  | Notice
  | Informational
  | Debug
  deriving DecidableEq

/-- Modelled from the spec: the generated header
`xyz/openbmc_project/Logging/Entry/server.hpp` is not part of the sources.  The
spec gives the severity of the record as the level Error; `convertForMessage`
renders a level as the fully qualified enumeration name that goes on the bus. -/
def convertForMessage : EntryLevel → String
  | .Emergency => "xyz.openbmc_project.Logging.Entry.Level.Emergency"
  | .Alert => "xyz.openbmc_project.Logging.Entry.Level.Alert"
  | .Critical => "xyz.openbmc_project.Logging.Entry.Level.Critical"
  | .Error => "xyz.openbmc_project.Logging.Entry.Level.Error"
  | .Warning => "xyz.openbmc_project.Logging.Entry.Level.Warning"
  | .Notice => "xyz.openbmc_project.Logging.Entry.Level.Notice"
  | .Informational => "xyz.openbmc_project.Logging.Entry.Level.Informational"
  | .Debug => "xyz.openbmc_project.Logging.Entry.Level.Debug"

/-- `std::to_string(int)`: the decimal rendering, with a leading minus sign
for a negative value. -/
def to_string (v : Int) : String :=
  match v with
  | Int.ofNat n => Nat.repr n
  | Int.negSucc n => "-" ++ Nat.repr (n + 1)

/-- `std::map::emplace`: inserts the pair unless the key is already there. -/
def emplace (m : List (String × String)) (k v : String) : List (String × String) :=
  if m.any (fun p => p.1 == k) then m else m ++ [(k, v)]

deriving instance DecidableEq for Except

/-! ## The environment of one run -/

/-- Everything one run of the process observes.
* `good i` is `f.good()` at the `i`-th evaluation of `isChassisTargetComplete`
  (counted from 0): `true` when the marker file could be opened.
* `checkFailure i` is an exception raised inside the `i`-th evaluation of
  `isChassisTargetComplete` before the stream is tested (by `new char[size]` or
  by the construction of the stream), if any.
* `getReply` is the outcome of the `Get` call and of reading its reply.
* `pid` is `getpid()`.
* `recordFailure` is an exception raised in `createErrorLog` before
  `bus.call` is reached, if any.
* `createReply` is the outcome of the `Create` call. -/
structure World where
  good : Nat → Bool
  checkFailure : Nat → Option Exception
  getReply : Except Exception String
  pid : Int
  recordFailure : Option Exception
  createReply : Except Exception Unit

/-! ## The functions of the source -/

/-- The `wasHostBooting` function: reads `BootProgress` and compares it with the
`Unspecified` stage. -/
def wasHostBooting (w : World) : List Event × Except Exception Bool :=
  let method := (new_method_call HOST_STATE_SVC HOST_STATE_PATH PROPERTY_INTERFACE "Get").append
    [Arg.str BOOT_STATE_INTF, Arg.str BOOT_PROGRESS_PROP]
  match w.getReply with
  | Except.ok bootProgress =>
    if bootProgress = "xyz.openbmc_project.State.Boot.Progress.ProgressStages.Unspecified" then
      ([Event.call method,
        Event.log level.INFO "Host was not booting before BMC reboot" []], Except.ok false)
    else
      ([Event.call method,
        Event.log level.INFO "Host was booting before BMC reboot"
          [entry "BOOTPROGRESS=%s" bootProgress]], Except.ok true)
  | Except.error e =>
    if e.type.isSdbusplus then
      ([Event.call method,
        Event.log level.ERR "Error reading BootProgress"
          [entry "ERROR=%s" e.what, entry "SERVICE=%s" HOST_STATE_SVC,
           entry "PATH=%s" HOST_STATE_PATH]], Except.error e)
    else
      ([Event.call method], Except.error e)

/-- The `try` block of `createErrorLog`. -/
def createErrorLog.body (w : World) : List Event × Except Exception Unit :=
  match w.recordFailure with
  | some e => ([], Except.error e)
  | none =>
    let additionalData := emplace [] "_PID" (to_string w.pid)
    let errorMessage := "xyz.openbmc_project.State.Error.HostNotRunning"
    let method := new_method_call LOGGING_SVC LOGGING_PATH LOGGING_CREATE_INTF "Create"
    let lvl := convertForMessage EntryLevel.Error
    let method := method.append [Arg.str errorMessage, Arg.str lvl, Arg.dict additionalData]
    match w.createReply with
    | Except.ok _ => ([Event.call method], Except.ok ())
    | Except.error e => ([Event.call method], Except.error e)

/-- The `createErrorLog` function: the `try` block followed by its two handlers. -/
def createErrorLog (w : World) : List Event × Except Exception Unit :=
  match createErrorLog.body w with
  | (t, Except.ok _) => (t, Except.ok ())
  | (t, Except.error e) =>
    if e.type.isSdbusplus then
      (t ++ [Event.log level.ERR "sdbusplus D-Bus call exception"
          [entry "OBJPATH=%s" LOGGING_PATH, entry "INTERFACE=%s" LOGGING_CREATE_INTF,
           entry "EXCEPTION=%s" e.what]],
        Except.error (runtime_error "Error in invoking D-Bus logging create interface"))
    else
      (t ++ [Event.log level.ERR "D-bus call exception" [entry "EXCEPTION=%s" e.what]],
        Except.error (throwByValue e))

/-- The `isChassisTargetComplete` function at its `i`-th evaluation: the marker
path is formatted from `CHASSIS_ON_FILE` with instance 0, an input stream is
opened on it, and the result is `!f.good()`.  The allocation of the path
buffer and the construction of the stream can throw; nothing here catches. -/
def isChassisTargetComplete (w : World) (i : Nat) : List Event × Except Exception Bool :=
  match w.checkFailure i with
  | some e => ([], Except.error e)
  | none => ([Event.ifstream_good (w.good i)], Except.ok (!(w.good i)))

/-- How the `while` loop of `main` stands: it was left, an exception escaped
from a check, or it is still polling when the allowed checks are used up. -/
inductive Wait where
  | left
  | raised (e : Exception)
  | polling
  deriving DecidableEq

/-- The `while` loop of `main`, started at its `i`-th check, with at most `fuel`
checks. -/
def waitLoop (w : World) : Nat → Nat → List Event × Wait
  | 0, _ => ([], Wait.polling)
  | fuel + 1, i =>
    match isChassisTargetComplete w i with
    | (t, Except.error e) => (t, Wait.raised e)
    | (t, Except.ok true) => (t, Wait.left)
    | (t, Except.ok false) =>
      let r := waitLoop w fuel (i + 1)
      (t ++ Event.log level.DEBUG "Waiting for chassis on target to complete" []
        :: Event.sleep_for 1 :: r.1, r.2)

/-- How the process ends: `main` returns a code, or an exception leaves `main`
uncaught and the process is terminated. -/
inductive Exit where
  | returned (code : Int)
  | terminated (e : Exception)
  deriving DecidableEq

/-- A run: its trace, and its end (`none` while the wait loop is still polling
when the allowed number of checks is used up). -/
structure Run where
  trace : List Event
  exit : Option Exit
  deriving DecidableEq

/-- The `main` function, with at most `fuel` marker checks.  The bus connection
of `sdbusplus::bus::new_default()` is taken as established; an exception that
leaves `isChassisTargetComplete`, `wasHostBooting` or `createErrorLog` is not
caught. -/
def main (fuel : Nat) (w : World) : Run :=
  match waitLoop w fuel 0 with
  | (t0, Wait.polling) => { trace := t0, exit := none }
  | (t0, Wait.raised e) => { trace := t0, exit := some (Exit.terminated e) }
  | (t0, Wait.left) =>
    let t1 := t0 ++ [Event.log level.INFO
      "Chassis power on has completed, checking if host is still running after the BMC reboot" []]
    match wasHostBooting w with
    | (t2, Except.error e) => { trace := t1 ++ t2, exit := some (Exit.terminated e) }
    | (t2, Except.ok false) => { trace := t1 ++ t2, exit := some (Exit.returned 0) }
    | (t2, Except.ok true) =>
      match createErrorLog w with
      | (t3, Except.error e) => { trace := t1 ++ t2 ++ t3, exit := some (Exit.terminated e) }
      | (t3, Except.ok _) => { trace := t1 ++ t2 ++ t3, exit := some (Exit.returned 0) }

/-! ## Reading a trace -/

/-- The `Create` message that `createErrorLog` sends for process id `pid`. -/
def createCall (pid : Int) : MethodCall :=
  { service := LOGGING_SVC, path := LOGGING_PATH, interface := LOGGING_CREATE_INTF,
    member := "Create",
    args := [Arg.str "xyz.openbmc_project.State.Error.HostNotRunning",
             Arg.str (convertForMessage EntryLevel.Error),
             Arg.dict [("_PID", to_string pid)]] }

/-- The `Get` message that `wasHostBooting` sends. -/
def getCall : MethodCall :=
  { service := HOST_STATE_SVC, path := HOST_STATE_PATH, interface := PROPERTY_INTERFACE,
    member := "Get", args := [Arg.str BOOT_STATE_INTF, Arg.str BOOT_PROGRESS_PROP] }

/-- Whether an event is a call of the `Create` method. -/
def Event.isCreate : Event → Bool
  | Event.call m => m.member == "Create"
  | _ => false

/-- The result of the latest marker check in a trace, if there was one. -/
def lastCheck : List Event → Option Bool
  | [] => none
  | Event.ifstream_good g :: t =>
    match lastCheck t with
    | some b => some b
    | none => some g
  | _ :: t => lastCheck t

/-- Whether an event is a marker check. -/
def Event.isCheck : Event → Bool
  | Event.ifstream_good _ => true
  | _ => false

/-- Whether an event is a log entry. -/
def Event.isLog : Event → Bool
  | Event.log _ _ _ => true
  | _ => false

/-- Whether an event is a sleep. -/
def Event.isSleep : Event → Bool
  | Event.sleep_for _ => true
  | _ => false

/-- The trace of a wait loop that finds the marker present `n` times and then
absent. -/
def pollTrace : Nat → List Event
  | 0 => [Event.ifstream_good false]
  | n + 1 =>
    Event.ifstream_good true
      :: Event.log level.DEBUG "Waiting for chassis on target to complete" []
      :: Event.sleep_for 1 :: pollTrace n

/-- The wait ends at the `n`-th check: the checks before it return false
(marker present) and the `n`-th returns true (marker absent). -/
def waitEndsAt (w : World) (n : Nat) : Prop :=
  (∀ i, i < n → (isChassisTargetComplete w i).2 = Except.ok false) ∧
    (isChassisTargetComplete w n).2 = Except.ok true

/-! ## Reading a decimal string -/

/-- The number that a list of decimal digit characters denotes. -/
def decimalValue (cs : List Char) : Nat :=
  cs.foldl (fun acc c => 10 * acc + (c.toNat - 48)) 0

/-- The integer that a decimal string with an optional leading minus sign
denotes. -/
def parseDecimal (s : String) : Int :=
  match s.data with
  | [] => 0
  | c :: cs => if c = '-' then - (decimalValue cs : Int) else (decimalValue (c :: cs) : Int)

/-! ## Failures of a run -/

/-- A remote call that `main` issues ends in a remote-call failure: the property
read does, or the host was booting, the record was built and the Create call
does. -/
def remoteCallFails (w : World) : Bool :=
  match w.getReply with
  | Except.error e => e.type.isSdbusplus
  | Except.ok stage =>
    if stage = "xyz.openbmc_project.State.Boot.Progress.ProgressStages.Unspecified" then false
    else
      match w.recordFailure with
      | some _ => false
      | none =>
        match w.createReply with
        | Except.error e => e.type.isSdbusplus
        | Except.ok _ => false

/-- Nothing fails in the run: the property read succeeds and, when the stage is
not the sentinel, so do the construction of the record and the Create call. -/
def noFailure (w : World) : Bool :=
  match w.getReply with
  | Except.error _ => false
  | Except.ok stage =>
    if stage = "xyz.openbmc_project.State.Boot.Progress.ProgressStages.Unspecified" then true
    else
      match w.recordFailure with
      | some _ => false
      | none =>
        match w.createReply with
        | Except.error _ => false
        | Except.ok _ => true

/-! ## Concrete runs -/

/-- A remote-call failure as `sdbusplus` reports it. -/
def sdBusError (msg : String) : Exception :=
  { type := ExcType.sdbusplus "sdbusplus::exception::SdBusError", what := msg }

/-- An allocation failure. -/
def bad_alloc : Exception :=
  { type := ExcType.std_other "std::bad_alloc", what := "std::bad_alloc" }

/-- The marker is there at the first two checks; the host reported the
unqualified stage name `Unspecified`; both remote calls succeed. -/
def wBooting : World :=
  { good := fun i => decide (i < 2), checkFailure := fun _ => none,
    getReply := Except.ok "Unspecified", pid := 1234,
    recordFailure := none, createReply := Except.ok () }

/-- The marker is there at the first check; the host reported the sentinel stage. -/
def wIdle : World :=
  { good := fun i => decide (i < 1), checkFailure := fun _ => none,
    getReply := Except.ok "xyz.openbmc_project.State.Boot.Progress.ProgressStages.Unspecified",
    pid := 1234, recordFailure := none, createReply := Except.ok () }

/-- The host state service cannot be reached. -/
def wHostDown : World :=
  { good := fun _ => false, checkFailure := fun _ => none,
    getReply := Except.error (sdBusError "sd_bus_call: org.freedesktop.DBus.Error.ServiceUnknown"),
    pid := 1234, recordFailure := none, createReply := Except.ok () }

/-- The host was in `OSStart`; the logging service cannot be reached. -/
def wSinkDown : World :=
  { good := fun _ => false, checkFailure := fun _ => none,
    getReply := Except.ok "xyz.openbmc_project.State.Boot.Progress.ProgressStages.OSStart",
    pid := 1234, recordFailure := none,
    createReply :=
      Except.error (sdBusError "sd_bus_call: org.freedesktop.DBus.Error.ServiceUnknown") }

/-- The host was in `OSStart`; building the record runs out of memory. -/
def wBadAlloc : World :=
  { good := fun _ => false, checkFailure := fun _ => none,
    getReply := Except.ok "xyz.openbmc_project.State.Boot.Progress.ProgressStages.OSStart",
    pid := 1234, recordFailure := some bad_alloc, createReply := Except.ok () }

/-- The marker is there at the first two checks and gone at the third; the
second check runs out of memory when it allocates the path buffer. -/
def wCheckBadAlloc : World :=
  { good := fun i => decide (i < 2),
    checkFailure := fun i => if i = 1 then some bad_alloc else none,
    getReply := Except.ok "xyz.openbmc_project.State.Boot.Progress.ProgressStages.Unspecified",
    pid := 1234, recordFailure := none, createReply := Except.ok () }

/-! ## The wait loop -/

theorem isChassisTargetComplete_ok (w : World) (i : Nat) (b : Bool)
    (h : (isChassisTargetComplete w i).2 = Except.ok b) :
    isChassisTargetComplete w i = ([Event.ifstream_good (!b)], Except.ok b) := by
  unfold isChassisTargetComplete at h ⊢
  cases hc : w.checkFailure i with
  | some e => simp [hc] at h
  | none =>
    simp only [hc] at h ⊢
    have hb : (!(w.good i)) = b := by simpa using h
    subst hb
    simp

theorem isChassisTargetComplete_of_good (w : World) (i : Nat)
    (hc : w.checkFailure i = none) :
    (isChassisTargetComplete w i).2 = Except.ok (!(w.good i)) := by
  simp [isChassisTargetComplete, hc]

theorem isChassisTargetComplete_not_mem_call (w : World) (i : Nat) (m : MethodCall) :
    Event.call m ∉ (isChassisTargetComplete w i).1 := by
  unfold isChassisTargetComplete
  cases w.checkFailure i <;> simp

theorem waitLoop_pollTrace (w : World) :
    ∀ (n fuel i : Nat),
      (∀ j, j < n → (isChassisTargetComplete w (i + j)).2 = Except.ok false) →
      (isChassisTargetComplete w (i + n)).2 = Except.ok true →
      n < fuel → waitLoop w fuel i = (pollTrace n, Wait.left) := by
  intro n
  induction n with
  | zero =>
    intro fuel i _ hn hf
    obtain ⟨k, rfl⟩ : ∃ k, fuel = k + 1 := ⟨fuel - 1, by omega⟩
    have h0 := isChassisTargetComplete_ok w i true (by simpa using hn)
    simp [waitLoop, h0, pollTrace]
  | succ n ih =>
    intro fuel i hpre hn hf
    obtain ⟨k, rfl⟩ : ∃ k, fuel = k + 1 := ⟨fuel - 1, by omega⟩
    have h0 := isChassisTargetComplete_ok w i false (by simpa using hpre 0 (by omega))
    have hrec : waitLoop w k (i + 1) = (pollTrace n, Wait.left) := by
      apply ih
      · intro j hj
        have := hpre (j + 1) (by omega)
        rwa [show i + 1 + j = i + (j + 1) by omega]
      · rwa [show i + 1 + n = i + (n + 1) by omega]
      · omega
    simp [waitLoop, h0, hrec, pollTrace]

theorem waitEndsAt_of_good (w : World) (n : Nat) (hpresent : ∀ i, i < n → w.good i = true)
    (habsent : w.good n = false) (hchecks : ∀ i, i ≤ n → w.checkFailure i = none) :
    waitEndsAt w n := by
  constructor
  · intro i hi
    rw [isChassisTargetComplete_of_good w i (hchecks i (by omega)), hpresent i hi]
    rfl
  · rw [isChassisTargetComplete_of_good w n (hchecks n (by omega)), habsent]
    rfl

theorem waitLoop_of_waitEndsAt (w : World) (n fuel : Nat) (h : waitEndsAt w n)
    (hf : n < fuel) : waitLoop w fuel 0 = (pollTrace n, Wait.left) := by
  apply waitLoop_pollTrace w n fuel 0
  · intro j hj
    simpa using h.1 j hj
  · simpa using h.2
  · exact hf

theorem pollTrace_countP_isCheck (n : Nat) : (pollTrace n).countP Event.isCheck = n + 1 := by
  induction n with
  | zero => simp [pollTrace, Event.isCheck]
  | succ n ih => simp [pollTrace, Event.isCheck, ih]

theorem pollTrace_countP_isLog (n : Nat) : (pollTrace n).countP Event.isLog = n := by
  induction n with
  | zero => simp [pollTrace, Event.isLog]
  | succ n ih => simp [pollTrace, Event.isLog, ih]

theorem pollTrace_countP_isSleep (n : Nat) : (pollTrace n).countP Event.isSleep = n := by
  induction n with
  | zero => simp [pollTrace, Event.isSleep]
  | succ n ih => simp [pollTrace, Event.isSleep, ih]

theorem pollTrace_count_debug (n : Nat) :
    (pollTrace n).count
      (Event.log level.DEBUG "Waiting for chassis on target to complete" []) = n := by
  induction n with
  | zero => simp [pollTrace]
  | succ n ih => simp [pollTrace, ih]

theorem pollTrace_count_sleep (n : Nat) : (pollTrace n).count (Event.sleep_for 1) = n := by
  induction n with
  | zero => simp [pollTrace]
  | succ n ih => simp [pollTrace, ih]

theorem pollTrace_countP_isCreate (n : Nat) : (pollTrace n).countP Event.isCreate = 0 := by
  induction n with
  | zero => simp [pollTrace, Event.isCreate]
  | succ n ih => simp [pollTrace, Event.isCreate, ih]

theorem pollTrace_not_mem_call (n : Nat) (m : MethodCall) : Event.call m ∉ pollTrace n := by
  induction n with
  | zero => simp [pollTrace]
  | succ n ih => simp [pollTrace, ih]

/-- No remote call is issued inside the wait loop, however long it runs. -/
theorem waitLoop_not_mem_call (w : World) (m : MethodCall) :
    ∀ (fuel i : Nat), Event.call m ∉ (waitLoop w fuel i).1 := by
  intro fuel
  induction fuel with
  | zero => intro i; simp [waitLoop]
  | succ k ih =>
    intro i
    have hnot := isChassisTargetComplete_not_mem_call w i m
    rcases hc : isChassisTargetComplete w i with ⟨t, e | b⟩
    · rw [hc] at hnot
      simpa [waitLoop, hc] using hnot
    · rw [hc] at hnot
      cases b
      · simpa [waitLoop, hc, ih (i + 1)] using hnot
      · simpa [waitLoop, hc] using hnot

/-- When the wait loop is left, the latest check found the marker absent. -/
theorem waitLoop_lastCheck (w : World) :
    ∀ (fuel i : Nat), (waitLoop w fuel i).2 = Wait.left →
      lastCheck (waitLoop w fuel i).1 = some false := by
  intro fuel
  induction fuel with
  | zero => intro i h; simp [waitLoop] at h
  | succ k ih =>
    intro i h
    rcases hc : (isChassisTargetComplete w i).2 with e | b
    · have hc2 : isChassisTargetComplete w i = ((isChassisTargetComplete w i).1, Except.error e) := by
        rw [← hc]
      rw [waitLoop, hc2] at h
      simp at h
    · have hc2 := isChassisTargetComplete_ok w i b hc
      cases b
      · have h2 : (waitLoop w k (i + 1)).2 = Wait.left := by simpa [waitLoop, hc2] using h
        simp [waitLoop, hc2, lastCheck, ih (i + 1) h2]
      · simp [waitLoop, hc2, lastCheck]

/-! ## The run after the wait loop -/

theorem main_of_done (w : World) (fuel : Nat) (t : List Event)
    (h : waitLoop w fuel 0 = (t, Wait.left)) :
    main fuel w =
      (match wasHostBooting w with
      | (t2, Except.error e) =>
        { trace := t ++ [Event.log level.INFO
            "Chassis power on has completed, checking if host is still running after the BMC reboot"
            []] ++ t2, exit := some (Exit.terminated e) }
      | (t2, Except.ok false) =>
        { trace := t ++ [Event.log level.INFO
            "Chassis power on has completed, checking if host is still running after the BMC reboot"
            []] ++ t2, exit := some (Exit.returned 0) }
      | (t2, Except.ok true) =>
        match createErrorLog w with
        | (t3, Except.error e) =>
          { trace := t ++ [Event.log level.INFO
              "Chassis power on has completed, checking if host is still running after the BMC reboot"
              []] ++ t2 ++ t3, exit := some (Exit.terminated e) }
        | (t3, Except.ok _) =>
          { trace := t ++ [Event.log level.INFO
              "Chassis power on has completed, checking if host is still running after the BMC reboot"
              []] ++ t2 ++ t3, exit := some (Exit.returned 0) }) := by
  simp [main, h]

theorem main_exit_of_not_left (w : World) (fuel : Nat)
    (h : (waitLoop w fuel 0).2 ≠ Wait.left) (code : Int) :
    (main fuel w).exit ≠ some (Exit.returned code) := by
  unfold main
  rcases hw : waitLoop w fuel 0 with ⟨t, _ | e | _⟩
  · rw [hw] at h
    exact absurd rfl h
  · simp
  · simp

theorem wasHostBooting_sentinel (w : World)
    (h : w.getReply =
      Except.ok "xyz.openbmc_project.State.Boot.Progress.ProgressStages.Unspecified") :
    wasHostBooting w =
      ([Event.call getCall, Event.log level.INFO "Host was not booting before BMC reboot" []],
        Except.ok false) := by
  simp [wasHostBooting, h, getCall, new_method_call, MethodCall.append]

theorem wasHostBooting_other (w : World) (stage : String) (h : w.getReply = Except.ok stage)
    (hne : stage ≠ "xyz.openbmc_project.State.Boot.Progress.ProgressStages.Unspecified") :
    wasHostBooting w =
      ([Event.call getCall,
        Event.log level.INFO "Host was booting before BMC reboot"
          [entry "BOOTPROGRESS=%s" stage]], Except.ok true) := by
  simp [wasHostBooting, h, hne, getCall, new_method_call, MethodCall.append]

theorem wasHostBooting_sdbusplus (w : World) (e : Exception) (h : w.getReply = Except.error e)
    (hs : e.type.isSdbusplus = true) :
    wasHostBooting w =
      ([Event.call getCall,
        Event.log level.ERR "Error reading BootProgress"
          [entry "ERROR=%s" e.what, entry "SERVICE=%s" HOST_STATE_SVC,
           entry "PATH=%s" HOST_STATE_PATH]], Except.error e) := by
  simp [wasHostBooting, h, hs, getCall, new_method_call, MethodCall.append]

theorem wasHostBooting_other_failure (w : World) (e : Exception)
    (h : w.getReply = Except.error e) (hs : e.type.isSdbusplus = false) :
    wasHostBooting w = ([Event.call getCall], Except.error e) := by
  simp [wasHostBooting, h, hs, getCall, new_method_call, MethodCall.append]

theorem createErrorLog_ok (w : World) (hr : w.recordFailure = none)
    (hc : w.createReply = Except.ok ()) :
    createErrorLog w = ([Event.call (createCall w.pid)], Except.ok ()) := by
  simp [createErrorLog, createErrorLog.body, hr, hc, createCall, new_method_call,
    MethodCall.append, emplace]

theorem createErrorLog_sdbusplus (w : World) (e : Exception) (hr : w.recordFailure = none)
    (hc : w.createReply = Except.error e) (hs : e.type.isSdbusplus = true) :
    createErrorLog w =
      ([Event.call (createCall w.pid),
        Event.log level.ERR "sdbusplus D-Bus call exception"
          [entry "OBJPATH=%s" LOGGING_PATH, entry "INTERFACE=%s" LOGGING_CREATE_INTF,
           entry "EXCEPTION=%s" e.what]],
        Except.error (runtime_error "Error in invoking D-Bus logging create interface")) := by
  simp [createErrorLog, createErrorLog.body, hr, hc, hs, createCall, new_method_call,
    MethodCall.append, emplace]

theorem createErrorLog_other_failure (w : World) (e : Exception) (hr : w.recordFailure = none)
    (hc : w.createReply = Except.error e) (hs : e.type.isSdbusplus = false) :
    createErrorLog w =
      ([Event.call (createCall w.pid),
        Event.log level.ERR "D-bus call exception" [entry "EXCEPTION=%s" e.what]],
        Except.error (throwByValue e)) := by
  simp [createErrorLog, createErrorLog.body, hr, hc, hs, createCall, new_method_call,
    MethodCall.append, emplace]

theorem createErrorLog_recordFailure (w : World) (e : Exception)
    (hr : w.recordFailure = some e) :
    createErrorLog w =
      if e.type.isSdbusplus then
        ([Event.log level.ERR "sdbusplus D-Bus call exception"
          [entry "OBJPATH=%s" LOGGING_PATH, entry "INTERFACE=%s" LOGGING_CREATE_INTF,
           entry "EXCEPTION=%s" e.what]],
          Except.error (runtime_error "Error in invoking D-Bus logging create interface"))
      else
        ([Event.log level.ERR "D-bus call exception" [entry "EXCEPTION=%s" e.what]],
          Except.error (throwByValue e)) := by
  simp [createErrorLog, createErrorLog.body, hr]

/-- The trace of `main` for any number of allowed checks: the wait loop, then,
if the loop was left, the announcement, the property read and, when the host
was booting, the error log creation. -/
theorem main_trace (w : World) (fuel : Nat) :
    (main fuel w).trace =
      (waitLoop w fuel 0).1 ++
        (if (waitLoop w fuel 0).2 = Wait.left then
          [Event.log level.INFO
            "Chassis power on has completed, checking if host is still running after the BMC reboot"
            []] ++ (wasHostBooting w).1 ++
            (match (wasHostBooting w).2 with
            | Except.ok true => (createErrorLog w).1
            | _ => [])
        else []) := by
  unfold main
  rcases hl : waitLoop w fuel 0 with ⟨t0, _ | x | _⟩
  · simp only [if_true]
    rcases hw : wasHostBooting w with ⟨t2, r2⟩
    rcases r2 with e | b
    · simp
    · cases b
      · simp
      · rcases hc : createErrorLog w with ⟨t3, r3⟩
        rcases r3 with e | u
        · simp
        · simp
  · simp
  · simp

theorem main_countP_isCreate_of_sentinel (w : World) (fuel : Nat)
    (h : w.getReply =
      Except.ok "xyz.openbmc_project.State.Boot.Progress.ProgressStages.Unspecified") :
    (main fuel w).trace.countP Event.isCreate = 0 := by
  rw [List.countP_eq_zero]
  intro ev hev
  rw [main_trace, wasHostBooting_sentinel w h] at hev
  cases ev with
  | call m =>
    rcases List.mem_append.1 hev with h1 | h2
    · exact absurd h1 (waitLoop_not_mem_call w m fuel 0)
    · by_cases hd : (waitLoop w fuel 0).2 = Wait.left
      · simp [hd] at h2
        subst h2
        simp [Event.isCreate, getCall]
      · simp [hd] at h2
  | _ => simp [Event.isCreate]

/-! ## Splitting a trace at an event -/

theorem split_after_prefix {α : Type} (A B pre post : List α) (x : α)
    (h : A ++ B = pre ++ x :: post) (hx : x ∉ A) :
    ∃ mid, pre = A ++ mid ∧ B = mid ++ x :: post := by
  rcases List.append_eq_append_iff.1 h with ⟨a, ha, hb⟩ | ⟨c, hc, hd⟩
  · exact ⟨a, ha, hb⟩
  · cases c with
    | nil =>
      refine ⟨[], ?_, ?_⟩
      · simpa using hc.symm
      · simpa using hd.symm
    | cons y c =>
      have hy : x = y := by
        have := congrArg List.head? hd
        simpa using this
      subst hy
      exact absurd (by rw [hc]; simp) hx

theorem lastCheck_append (a b : List Event) :
    lastCheck (a ++ b) =
      (match lastCheck b with
      | some x => some x
      | none => lastCheck a) := by
  induction a with
  | nil => cases h : lastCheck b <;> simp [lastCheck, h]
  | cons e a ih =>
    cases e with
    | ifstream_good g =>
      cases hb : lastCheck b with
      | none =>
        rw [hb] at ih
        show lastCheck (Event.ifstream_good g :: (a ++ b)) = _
        simp only [lastCheck]
        rw [ih]
      | some x =>
        rw [hb] at ih
        show lastCheck (Event.ifstream_good g :: (a ++ b)) = _
        simp only [lastCheck]
        rw [ih]
    | log l m es => simpa [lastCheck] using ih
    | sleep_for k => simpa [lastCheck] using ih
    | call m => simpa [lastCheck] using ih

theorem lastCheck_eq_none (l : List Event) (h : ∀ e, e ∈ l → e.isCheck = false) :
    lastCheck l = none := by
  induction l with
  | nil => rfl
  | cons e l ih =>
    have hl : lastCheck l = none := ih (fun x hx => h x (List.mem_cons_of_mem _ hx))
    cases e with
    | ifstream_good g => simpa [Event.isCheck] using h (Event.ifstream_good g) (by simp)
    | log l m es => simpa [lastCheck] using hl
    | sleep_for k => simpa [lastCheck] using hl
    | call m => simpa [lastCheck] using hl

theorem wasHostBooting_isCheck (w : World) (e : Event) (h : e ∈ (wasHostBooting w).1) :
    e.isCheck = false := by
  unfold wasHostBooting at h
  split at h
  · split at h <;> simp at h <;> rcases h with rfl | rfl <;> rfl
  · split at h
    · simp at h; rcases h with rfl | rfl <;> rfl
    · simp at h; subst h; rfl

theorem createErrorLog_isCheck (w : World) (e : Event) (h : e ∈ (createErrorLog w).1) :
    e.isCheck = false := by
  unfold createErrorLog createErrorLog.body at h
  cases hr : w.recordFailure with
  | some x =>
    simp only [hr] at h
    split at h <;> simp at h <;> subst h <;> rfl
  | none =>
    simp only [hr] at h
    cases hc : w.createReply with
    | ok u =>
      simp [hc] at h; subst h; rfl
    | error x =>
      simp only [hc] at h
      split at h <;> simp at h <;> rcases h with rfl | rfl <;> rfl

theorem wasHostBooting_mem_call (w : World) (m : MethodCall)
    (h : Event.call m ∈ (wasHostBooting w).1) : m = getCall := by
  unfold wasHostBooting at h
  split at h
  · split at h <;> simp at h <;> simp [h, getCall, new_method_call, MethodCall.append]
  · split at h <;> simp at h <;> simp [h, getCall, new_method_call, MethodCall.append]

theorem wasHostBooting_call_mem (w : World) : Event.call getCall ∈ (wasHostBooting w).1 := by
  unfold wasHostBooting
  split
  · split <;> simp [getCall, new_method_call, MethodCall.append]
  · split <;> simp [getCall, new_method_call, MethodCall.append]

theorem createErrorLog_mem_call (w : World) (m : MethodCall)
    (h : Event.call m ∈ (createErrorLog w).1) :
    m = createCall w.pid ∧ w.recordFailure = none := by
  unfold createErrorLog createErrorLog.body at h
  cases hr : w.recordFailure with
  | some x =>
    simp only [hr] at h
    split at h <;> simp at h
  | none =>
    simp only [hr] at h
    cases hc : w.createReply with
    | ok u =>
      simp [hc] at h
      simp [h, createCall, new_method_call, MethodCall.append, emplace]
    | error x =>
      simp only [hc] at h
      split at h <;> simp at h <;>
        simp [h, createCall, new_method_call, MethodCall.append, emplace]

theorem wasHostBooting_ok_true (w : World) (h : (wasHostBooting w).2 = Except.ok true) :
    ∃ stage, w.getReply = Except.ok stage ∧
      stage ≠ "xyz.openbmc_project.State.Boot.Progress.ProgressStages.Unspecified" := by
  cases hg : w.getReply with
  | ok stage =>
    by_cases hs : stage = "xyz.openbmc_project.State.Boot.Progress.ProgressStages.Unspecified"
    · subst hs
      rw [wasHostBooting_sentinel w hg] at h
      simp at h
    · exact ⟨stage, rfl, hs⟩
  | error e =>
    cases hs : e.type.isSdbusplus with
    | true => rw [wasHostBooting_sdbusplus w e hg hs] at h; simp at h
    | false => rw [wasHostBooting_other_failure w e hg hs] at h; simp at h

theorem pollTrace_count_call (n : Nat) (m : MethodCall) :
    (pollTrace n).count (Event.call m) = 0 :=
  List.count_eq_zero_of_not_mem (pollTrace_not_mem_call n m)

/-! ## The decimal rendering -/

theorem digitChar_toNat (d : Nat) (h : d < 10) : (Nat.digitChar d).toNat - 48 = d := by
  interval_cases d <;> rfl

theorem digitChar_ne_minus (d : Nat) (h : d < 10) : Nat.digitChar d ≠ '-' := by
  interval_cases d <;> decide

theorem decimalValue_append (cs : List Char) (c : Char) :
    decimalValue (cs ++ [c]) = 10 * decimalValue cs + (c.toNat - 48) := by
  simp [decimalValue, List.foldl_append]

theorem toDigitsCore_append (fuel : Nat) :
    ∀ (n : Nat) (ds : List Char),
      Nat.toDigitsCore 10 fuel n ds = Nat.toDigitsCore 10 fuel n [] ++ ds := by
  induction fuel with
  | zero => intro n ds; simp [Nat.toDigitsCore]
  | succ k ih =>
    intro n ds
    simp only [Nat.toDigitsCore]
    by_cases h : n / 10 = 0
    · simp [h]
    · simp only [h, if_false]
      rw [ih (n / 10) (Nat.digitChar (n % 10) :: ds), ih (n / 10) [Nat.digitChar (n % 10)]]
      simp

theorem decimalValue_toDigitsCore (fuel : Nat) :
    ∀ n : Nat, n < fuel → decimalValue (Nat.toDigitsCore 10 fuel n []) = n := by
  induction fuel with
  | zero => intro n h; omega
  | succ k ih =>
    intro n hn
    simp only [Nat.toDigitsCore]
    by_cases h : n / 10 = 0
    · simp only [h, if_true]
      have h10 : n < 10 := by omega
      have := digitChar_toNat (n % 10) (Nat.mod_lt _ (by norm_num))
      simp [decimalValue, this]
      omega
    · simp only [h, if_false]
      rw [toDigitsCore_append, decimalValue_append, ih (n / 10) (by omega),
        digitChar_toNat (n % 10) (Nat.mod_lt _ (by norm_num))]
      omega

theorem toDigitsCore_head (fuel : Nat) :
    ∀ n : Nat, n < fuel →
      ∃ d cs, d < 10 ∧ Nat.toDigitsCore 10 fuel n [] = Nat.digitChar d :: cs := by
  induction fuel with
  | zero => intro n h; omega
  | succ k ih =>
    intro n hn
    simp only [Nat.toDigitsCore]
    by_cases h : n / 10 = 0
    · exact ⟨n % 10, [], Nat.mod_lt _ (by norm_num), by simp [h]⟩
    · simp only [h, if_false]
      obtain ⟨d, cs, hd, hcs⟩ := ih (n / 10) (by omega)
      refine ⟨d, cs ++ [Nat.digitChar (n % 10)], hd, ?_⟩
      rw [toDigitsCore_append, hcs]
      simp

theorem parseDecimal_to_string (v : Int) : parseDecimal (to_string v) = v := by
  cases v with
  | ofNat n =>
    obtain ⟨d, cs, hd, hcs⟩ := toDigitsCore_head (n + 1) n (by omega)
    have hval := decimalValue_toDigitsCore (n + 1) n (by omega)
    have hdata : (to_string (Int.ofNat n)).data = Nat.digitChar d :: cs := by
      simp [to_string, Nat.repr, Nat.toDigits, hcs, List.asString]
    rw [hcs] at hval
    unfold parseDecimal
    rw [hdata]
    simp [digitChar_ne_minus d hd, hval]
  | negSucc n =>
    have hval := decimalValue_toDigitsCore (n + 1 + 1) (n + 1) (by omega)
    have hdata : (to_string (Int.negSucc n)).data =
        '-' :: Nat.toDigitsCore 10 (n + 1 + 1) (n + 1) [] := by
      simp [to_string, Nat.repr, Nat.toDigits, List.asString]
    unfold parseDecimal
    rw [hdata]
    simp only [if_true, hval]
    rw [Int.negSucc_eq]
    push_cast
    ring

/-! ## The claims -/

/-- C1: for every stage string that a successful property read returns and that
differs from the fully qualified `Unspecified` sentinel, `wasHostBooting`
returns true, and when the wait ends and the record is built and the Create
call succeeds, `main` submits exactly one incident record and returns 0. -/
theorem wasHostBooting_true_of_other_stage (w : World) (stage : String)
    (hget : w.getReply = Except.ok stage)
    (hne : stage ≠ "xyz.openbmc_project.State.Boot.Progress.ProgressStages.Unspecified") :
    (wasHostBooting w).2 = Except.ok true ∧
    ∀ (n fuel : Nat), (∀ i, i < n → (isChassisTargetComplete w i).2 = Except.ok false) →
      (isChassisTargetComplete w n).2 = Except.ok true → n < fuel →
      w.recordFailure = none → w.createReply = Except.ok () →
        (main fuel w).trace.countP Event.isCreate = 1 ∧
        (main fuel w).trace.count (Event.call (createCall w.pid)) = 1 ∧
        (main fuel w).exit = some (Exit.returned 0) := by
  refine ⟨by rw [wasHostBooting_other w stage hget hne], ?_⟩
  intro n fuel hpre habs hfuel hrec hcreate
  have hloop := waitLoop_of_waitEndsAt w n fuel ⟨hpre, habs⟩ hfuel
  rw [main_of_done w fuel _ hloop, wasHostBooting_other w stage hget hne,
    createErrorLog_ok w hrec hcreate]
  refine ⟨?_, ?_, rfl⟩
  · simp [List.countP_append, pollTrace_countP_isCreate, Event.isCreate, getCall, createCall]
  · simp [List.count_append, pollTrace_count_call, getCall, createCall, LOGGING_SVC,
      HOST_STATE_SVC]

/-- C1 at a run where the marker is there twice and the stage read is the
unqualified name `Unspecified`. -/
theorem wasHostBooting_true_of_other_stage_witness :
    "Unspecified" ≠ "xyz.openbmc_project.State.Boot.Progress.ProgressStages.Unspecified" ∧
    (wasHostBooting wBooting).2 = Except.ok true ∧
    (main 3 wBooting).trace.countP Event.isCreate = 1 ∧
    (main 3 wBooting).trace.count (Event.call (createCall 1234)) = 1 ∧
    (main 3 wBooting).exit = some (Exit.returned 0) :=
  have h := wasHostBooting_true_of_other_stage wBooting "Unspecified" rfl (by decide)
  ⟨by decide, h.1, h.2 2 3 (by decide) (by decide) (by decide) rfl rfl⟩

/-- C2: when the successful property read returns exactly the sentinel stage,
`wasHostBooting` returns false after an informational log entry, `main` never
issues a Create call (its only remote call is the property read), and once the
wait has ended it returns 0. -/
theorem wasHostBooting_false_of_sentinel (w : World)
    (hget : w.getReply =
      Except.ok "xyz.openbmc_project.State.Boot.Progress.ProgressStages.Unspecified") :
    wasHostBooting w =
      ([Event.call getCall, Event.log level.INFO "Host was not booting before BMC reboot" []],
        Except.ok false) ∧
    (∀ fuel : Nat, (main fuel w).trace.countP Event.isCreate = 0) ∧
    (∀ (fuel : Nat) (m : MethodCall), Event.call m ∈ (main fuel w).trace → m = getCall) ∧
    ∀ (n fuel : Nat), (∀ i, i < n → (isChassisTargetComplete w i).2 = Except.ok false) →
      (isChassisTargetComplete w n).2 = Except.ok true → n < fuel →
      (main fuel w).exit = some (Exit.returned 0) := by
  refine ⟨wasHostBooting_sentinel w hget, fun fuel => main_countP_isCreate_of_sentinel w fuel hget,
    ?_, ?_⟩
  · intro fuel m hm
    rw [main_trace, wasHostBooting_sentinel w hget] at hm
    rcases List.mem_append.1 hm with h1 | h2
    · exact absurd h1 (waitLoop_not_mem_call w m fuel 0)
    · by_cases hd : (waitLoop w fuel 0).2 = Wait.left
      · simpa [hd] using h2
      · simp [hd] at h2
  · intro n fuel hpre habs hfuel
    have hloop := waitLoop_of_waitEndsAt w n fuel ⟨hpre, habs⟩ hfuel
    rw [main_of_done w fuel _ hloop, wasHostBooting_sentinel w hget]

/-- C2 at a run where the marker is there once and the stage read is the
sentinel. -/
theorem wasHostBooting_false_of_sentinel_witness :
    (wasHostBooting wIdle).2 = Except.ok false ∧
    (main 2 wIdle).trace.countP Event.isCreate = 0 ∧
    (main 2 wIdle).exit = some (Exit.returned 0) :=
  have h := wasHostBooting_false_of_sentinel wIdle rfl
  ⟨by rw [h.1], h.2.1 2, h.2.2.2 1 2 (by decide) (by decide) (by decide)⟩

/-- C3: on a remote property-read failure `wasHostBooting` logs one error entry
with the failure detail, the service name and the object path and then fails
with that same failure, so it yields neither true nor false; `main` never
attempts a Create call and, once the wait has ended, is terminated by that
failure. -/
theorem wasHostBooting_read_failure (w : World) (e : Exception)
    (hget : w.getReply = Except.error e) (hs : e.type.isSdbusplus = true) :
    wasHostBooting w =
      ([Event.call getCall,
        Event.log level.ERR "Error reading BootProgress"
          [entry "ERROR=%s" e.what, entry "SERVICE=%s" HOST_STATE_SVC,
           entry "PATH=%s" HOST_STATE_PATH]], Except.error e) ∧
    (∀ b : Bool, (wasHostBooting w).2 ≠ Except.ok b) ∧
    (∀ fuel : Nat, (main fuel w).trace.countP Event.isCreate = 0) ∧
    (∀ fuel : Nat, ∀ code : Int, (main fuel w).exit ≠ some (Exit.returned code)) ∧
    ∀ (n fuel : Nat), (∀ i, i < n → (isChassisTargetComplete w i).2 = Except.ok false) →
      (isChassisTargetComplete w n).2 = Except.ok true → n < fuel →
      (main fuel w).exit = some (Exit.terminated e) := by
  have hw := wasHostBooting_sdbusplus w e hget hs
  refine ⟨hw, ?_, ?_, ?_, ?_⟩
  · intro b
    rw [hw]
    simp
  · intro fuel
    rw [List.countP_eq_zero]
    intro ev hev
    rw [main_trace, hw] at hev
    cases ev with
    | call m =>
      rcases List.mem_append.1 hev with h1 | h2
      · exact absurd h1 (waitLoop_not_mem_call w m fuel 0)
      · by_cases hd : (waitLoop w fuel 0).2 = Wait.left
        · simp [hd] at h2
          subst h2
          simp [Event.isCreate, getCall]
        · simp [hd] at h2
    | _ => simp [Event.isCreate]
  · intro fuel code
    by_cases hd : (waitLoop w fuel 0).2 = Wait.left
    · have hloop : waitLoop w fuel 0 = ((waitLoop w fuel 0).1, Wait.left) := by
        rw [← hd]
      rw [main_of_done w fuel _ hloop, hw]
      simp
    · exact main_exit_of_not_left w fuel hd code
  · intro n fuel hpre habs hfuel
    have hloop := waitLoop_of_waitEndsAt w n fuel ⟨hpre, habs⟩ hfuel
    rw [main_of_done w fuel _ hloop, hw]

/-- C3 at a run where the host state service is unknown on the bus. -/
theorem wasHostBooting_read_failure_witness :
    (wasHostBooting wHostDown).2 =
      Except.error (sdBusError "sd_bus_call: org.freedesktop.DBus.Error.ServiceUnknown") ∧
    (main 1 wHostDown).trace.countP Event.isCreate = 0 ∧
    (main 1 wHostDown).exit =
      some (Exit.terminated
        (sdBusError "sd_bus_call: org.freedesktop.DBus.Error.ServiceUnknown")) :=
  have h := wasHostBooting_read_failure wHostDown
    (sdBusError "sd_bus_call: org.freedesktop.DBus.Error.ServiceUnknown") rfl rfl
  ⟨by rw [h.1], h.2.2.1 1, h.2.2.2.2 0 1 (by decide) (by decide) (by decide)⟩

/-- C4: for every sequence of marker observations and every point of a run of
`main` at which a remote call is issued, the latest marker check before that
call found the marker absent; the call is the property read or the Create
call, and a Create call comes only after the property read, which returned a
stage other than the sentinel. -/
theorem main_calls_after_marker_absent (w : World) (fuel : Nat) (pre post : List Event)
    (m : MethodCall) (h : (main fuel w).trace = pre ++ Event.call m :: post) :
    lastCheck pre = some false ∧
    (m = getCall ∨ m = createCall w.pid) ∧
    (m.member = "Create" →
      Event.call getCall ∈ pre ∧
      ∃ stage, w.getReply = Except.ok stage ∧
        stage ≠ "xyz.openbmc_project.State.Boot.Progress.ProgressStages.Unspecified") := by
  rw [main_trace] at h
  obtain ⟨mid, hpre, hmid⟩ :=
    split_after_prefix _ _ pre post (Event.call m) h (waitLoop_not_mem_call w m fuel 0)
  have hd : (waitLoop w fuel 0).2 = Wait.left := by
    by_cases hd : (waitLoop w fuel 0).2 = Wait.left
    · exact hd
    · simp [hd] at hmid
  simp only [hd, if_true] at hmid
  have hmidcheck : ∀ e, e ∈ mid → e.isCheck = false := by
    intro e he
    have hmem : e ∈ mid ++ Event.call m :: post := List.mem_append_left _ he
    rw [← hmid] at hmem
    simp only [List.mem_append, List.mem_singleton] at hmem
    rcases hmem with (h1 | h2) | h3
    · subst h1; rfl
    · exact wasHostBooting_isCheck w e h2
    · split at h3
      · exact createErrorLog_isCheck w e h3
      · simp at h3
  have hlast : lastCheck pre = some false := by
    rw [hpre, lastCheck_append, lastCheck_eq_none mid hmidcheck]
    exact waitLoop_lastCheck w fuel 0 hd
  have hmem : Event.call m ∈ mid ++ Event.call m :: post := by simp
  rw [← hmid] at hmem
  simp only [List.mem_append, List.mem_singleton] at hmem
  refine ⟨hlast, ?_, ?_⟩
  · rcases hmem with (h1 | h2) | h3
    · simp at h1
    · exact Or.inl (wasHostBooting_mem_call w m h2)
    · split at h3
      · exact Or.inr (createErrorLog_mem_call w m h3).1
      · simp at h3
  · intro hcreate
    have hnot : Event.call m ∉
        [Event.log level.INFO
          "Chassis power on has completed, checking if host is still running after the BMC reboot"
          []] ++ (wasHostBooting w).1 := by
      intro hin
      simp only [List.mem_append, List.mem_singleton] at hin
      rcases hin with h1 | h2
      · simp at h1
      · have := wasHostBooting_mem_call w m h2
        subst this
        simp [getCall] at hcreate
    obtain ⟨mid2, hmid2, hrest⟩ := split_after_prefix _ _ mid post (Event.call m) hmid hnot
    have htrue : (wasHostBooting w).2 = Except.ok true := by
      rcases hr : (wasHostBooting w).2 with e | b
      · rw [hr] at hrest; simp at hrest
      · cases b
        · rw [hr] at hrest; simp at hrest
        · rfl
    refine ⟨?_, wasHostBooting_ok_true w htrue⟩
    rw [hpre, hmid2]
    simp [wasHostBooting_call_mem w]

/-- C4 at the Create call of a run where the marker is there twice. -/
theorem main_calls_after_marker_absent_witness :
    (main 3 wBooting).trace =
      (pollTrace 2 ++
        [Event.log level.INFO
          "Chassis power on has completed, checking if host is still running after the BMC reboot"
          [],
         Event.call getCall,
         Event.log level.INFO "Host was booting before BMC reboot"
          [entry "BOOTPROGRESS=%s" "Unspecified"]]) ++ Event.call (createCall 1234) :: [] ∧
    lastCheck (pollTrace 2 ++
        [Event.log level.INFO
          "Chassis power on has completed, checking if host is still running after the BMC reboot"
          [],
         Event.call getCall,
         Event.log level.INFO "Host was booting before BMC reboot"
          [entry "BOOTPROGRESS=%s" "Unspecified"]]) = some false :=
  ⟨by decide, (main_calls_after_marker_absent wBooting 3 _ [] (createCall 1234) (by decide)).1⟩

/-- C10, as stated, fails: the marker is there at the first two checks and gone
at the third, but the second check runs out of memory while allocating the path
buffer, so the loop is never left normally and `main` is terminated by the
uncaught `std::bad_alloc`. -/
theorem waitLoop_check_bad_alloc :
    (∀ i, i < 2 → wCheckBadAlloc.good i = true) ∧ wCheckBadAlloc.good 2 = false ∧
    (∀ fuel : Nat, (waitLoop wCheckBadAlloc fuel 0).2 ≠ Wait.left) ∧
    waitLoop wCheckBadAlloc 3 0 =
      ([Event.ifstream_good true,
        Event.log level.DEBUG "Waiting for chassis on target to complete" [],
        Event.sleep_for 1], Wait.raised bad_alloc) ∧
    (main 3 wCheckBadAlloc).exit = some (Exit.terminated bad_alloc) := by
  refine ⟨by decide, by decide, ?_, by decide, by decide⟩
  intro fuel
  rcases fuel with _ | _ | k <;>
    simp [waitLoop, isChassisTargetComplete, wCheckBadAlloc]

/-- C10, amended: when the first observation that finds the marker absent is the
one with index `n` and no check up to that one raises an exception, the wait
loop of `main` is left normally after exactly `n + 1` checks, `n` debug traces
and `n` sleeps of one second each, and `main` goes on to the announcement that
follows the loop; with `n = 0` the loop consists of the single check. -/
theorem waitLoop_ends_at_first_absent (w : World) (n fuel : Nat)
    (hpresent : ∀ i, i < n → w.good i = true) (habsent : w.good n = false)
    (hchecks : ∀ i, i ≤ n → w.checkFailure i = none) (hfuel : n < fuel) :
    (waitLoop w fuel 0).2 = Wait.left ∧
    (waitLoop w fuel 0).1.countP Event.isCheck = n + 1 ∧
    (waitLoop w fuel 0).1.countP Event.isLog = n ∧
    (waitLoop w fuel 0).1.count
      (Event.log level.DEBUG "Waiting for chassis on target to complete" []) = n ∧
    (waitLoop w fuel 0).1.countP Event.isSleep = n ∧
    (waitLoop w fuel 0).1.count (Event.sleep_for 1) = n ∧
    (n = 0 → (waitLoop w fuel 0).1 = [Event.ifstream_good false]) ∧
    (∃ rest, (main fuel w).trace =
      (waitLoop w fuel 0).1 ++
        Event.log level.INFO
          "Chassis power on has completed, checking if host is still running after the BMC reboot"
          [] :: rest) ∧
    (main fuel w).exit ≠ none := by
  have hloop := waitLoop_of_waitEndsAt w n fuel
    (waitEndsAt_of_good w n hpresent habsent hchecks) hfuel
  have hmain := main_trace w fuel
  rw [hloop] at hmain
  rw [hloop]
  refine ⟨rfl, pollTrace_countP_isCheck n, pollTrace_countP_isLog n, pollTrace_count_debug n,
    pollTrace_countP_isSleep n, pollTrace_count_sleep n, ?_, ?_, ?_⟩
  · intro h0
    subst h0
    rfl
  · exact ⟨_, by simpa using hmain⟩
  · rw [main_of_done w fuel _ hloop]
    rcases wasHostBooting w with ⟨t2, e | b⟩
    · simp
    · cases b
      · simp
      · rcases createErrorLog w with ⟨t3, e | u⟩ <;> simp

/-- C10, amended, at a run where the marker is there at the first two checks
and no check fails. -/
theorem waitLoop_ends_at_first_absent_witness :
    (waitLoop wBooting 3 0).2 = Wait.left ∧
    (waitLoop wBooting 3 0).1.countP Event.isCheck = 2 + 1 ∧
    (waitLoop wBooting 3 0).1.countP Event.isLog = 2 ∧
    (waitLoop wBooting 3 0).1.countP Event.isSleep = 2 :=
  have h := waitLoop_ends_at_first_absent wBooting 2 3 (by decide) (by decide)
    (fun _ _ => rfl) (by decide)
  ⟨h.1, h.2.1, h.2.2.1, h.2.2.2.2.1⟩

/-- C5: every Create message that `createErrorLog` sends, for any process
identifier, goes to the logging service with the error kind
`xyz.openbmc_project.State.Error.HostNotRunning`, the severity level Error and
a metadata map whose key `_PID` holds the decimal string of the process
identifier; the message is sent whenever the record could be built. -/
theorem createErrorLog_record (w : World) :
    (w.recordFailure = none → Event.call (createCall w.pid) ∈ (createErrorLog w).1) ∧
    (∀ m : MethodCall, Event.call m ∈ (createErrorLog w).1 →
      m.service = LOGGING_SVC ∧ m.path = LOGGING_PATH ∧ m.interface = LOGGING_CREATE_INTF ∧
      m.member = "Create" ∧
      m.args = [Arg.str "xyz.openbmc_project.State.Error.HostNotRunning",
                Arg.str (convertForMessage EntryLevel.Error),
                Arg.dict [("_PID", to_string w.pid)]]) ∧
    parseDecimal (to_string w.pid) = w.pid := by
  refine ⟨?_, ?_, parseDecimal_to_string w.pid⟩
  · intro hr
    cases hc : w.createReply with
    | ok u => rw [createErrorLog_ok w hr hc]; simp
    | error e =>
      cases hs : e.type.isSdbusplus with
      | true => rw [createErrorLog_sdbusplus w e hr hc hs]; simp
      | false => rw [createErrorLog_other_failure w e hr hc hs]; simp
  · intro m hm
    rw [(createErrorLog_mem_call w m hm).1]
    simp [createCall]

/-- C5 for the process identifier 1234. -/
theorem createErrorLog_record_witness :
    Event.call (createCall 1234) ∈ (createErrorLog wBooting).1 ∧
    parseDecimal (to_string 1234) = 1234 :=
  ⟨(createErrorLog_record wBooting).1 rfl, (createErrorLog_record wBooting).2.2⟩

/-- C6: when the Create call fails remotely after `wasHostBooting` has returned
true, `createErrorLog` logs one error entry with the object path, the interface
and the detail of the failure and then fails, and `main`, once the wait has
ended, is terminated by that error and never returns 0. -/
theorem createErrorLog_create_failure (w : World) (stage : String) (e : Exception)
    (hget : w.getReply = Except.ok stage)
    (hne : stage ≠ "xyz.openbmc_project.State.Boot.Progress.ProgressStages.Unspecified")
    (hrec : w.recordFailure = none) (hcreate : w.createReply = Except.error e)
    (hs : e.type.isSdbusplus = true) :
    (wasHostBooting w).2 = Except.ok true ∧
    createErrorLog w =
      ([Event.call (createCall w.pid),
        Event.log level.ERR "sdbusplus D-Bus call exception"
          [entry "OBJPATH=%s" LOGGING_PATH, entry "INTERFACE=%s" LOGGING_CREATE_INTF,
           entry "EXCEPTION=%s" e.what]],
        Except.error (runtime_error "Error in invoking D-Bus logging create interface")) ∧
    (∀ (fuel : Nat) (code : Int), (main fuel w).exit ≠ some (Exit.returned code)) ∧
    ∀ (n fuel : Nat), (∀ i, i < n → (isChassisTargetComplete w i).2 = Except.ok false) →
      (isChassisTargetComplete w n).2 = Except.ok true → n < fuel →
      (main fuel w).exit =
        some (Exit.terminated
          (runtime_error "Error in invoking D-Bus logging create interface")) := by
  have hw := wasHostBooting_other w stage hget hne
  have hc := createErrorLog_sdbusplus w e hrec hcreate hs
  refine ⟨by rw [hw], hc, ?_, ?_⟩
  · intro fuel code
    by_cases hd : (waitLoop w fuel 0).2 = Wait.left
    · have hloop : waitLoop w fuel 0 = ((waitLoop w fuel 0).1, Wait.left) := by
        rw [← hd]
      rw [main_of_done w fuel _ hloop, hw, hc]
      simp
    · exact main_exit_of_not_left w fuel hd code
  · intro n fuel hpre habs hfuel
    have hloop := waitLoop_of_waitEndsAt w n fuel ⟨hpre, habs⟩ hfuel
    rw [main_of_done w fuel _ hloop, hw, hc]

/-- C6 at a run where the logging service is unknown on the bus. -/
theorem createErrorLog_create_failure_witness :
    (wasHostBooting wSinkDown).2 = Except.ok true ∧
    (createErrorLog wSinkDown).2 =
      Except.error (runtime_error "Error in invoking D-Bus logging create interface") ∧
    (main 1 wSinkDown).exit =
      some (Exit.terminated
        (runtime_error "Error in invoking D-Bus logging create interface")) :=
  have h := createErrorLog_create_failure wSinkDown
    "xyz.openbmc_project.State.Boot.Progress.ProgressStages.OSStart"
    (sdBusError "sd_bus_call: org.freedesktop.DBus.Error.ServiceUnknown") rfl (by decide)
    rfl rfl rfl
  ⟨h.1, by rw [h.2.1], h.2.2.2 0 1 (by decide) (by decide) (by decide)⟩

/-- C7, at the failing input: when building the record raises `std::bad_alloc`,
`createErrorLog` logs its message and then throws an object of dynamic type
`std::exception` whose message is the base class text, which is not the
exception that was caught. -/
theorem createErrorLog_bad_alloc_sliced :
    createErrorLog wBadAlloc =
      ([Event.log level.ERR "D-bus call exception" [entry "EXCEPTION=%s" "std::bad_alloc"]],
        Except.error { type := ExcType.std_exception, what := "std::exception" }) ∧
    ExcType.std_exception ≠ bad_alloc.type ∧ "std::exception" ≠ bad_alloc.what := by
  decide

/-- C8, as stated, fails: with the marker absent, the host in `OSStart` and the
record construction running out of memory, no remote call fails and yet `main`
does not return 0. -/
theorem main_bad_alloc_no_remote_failure :
    ¬ ((main 1 wBadAlloc).exit = some (Exit.returned 0) ↔ remoteCallFails wBadAlloc = false) := by
  decide

/-- C8, amended: once the wait has ended (the checks before the `n`-th return
false and the `n`-th returns true), `main` returns 0 when the stage is the
sentinel and when it is not and the record is built and the Create call
succeeds; it returns 0 if and only if nothing fails, and every failure, a
remote-call failure in particular, ends the process through an uncaught
exception. -/
theorem main_returns_zero_iff_no_failure (w : World) (n fuel : Nat)
    (hpresent : ∀ i, i < n → (isChassisTargetComplete w i).2 = Except.ok false)
    (habsent : (isChassisTargetComplete w n).2 = Except.ok true) (hfuel : n < fuel) :
    (w.getReply =
        Except.ok "xyz.openbmc_project.State.Boot.Progress.ProgressStages.Unspecified" →
      (main fuel w).exit = some (Exit.returned 0)) ∧
    (∀ stage : String, w.getReply = Except.ok stage →
      stage ≠ "xyz.openbmc_project.State.Boot.Progress.ProgressStages.Unspecified" →
      w.recordFailure = none → w.createReply = Except.ok () →
      (main fuel w).exit = some (Exit.returned 0)) ∧
    ((main fuel w).exit = some (Exit.returned 0) ↔ noFailure w = true) ∧
    (noFailure w = false → ∃ e, (main fuel w).exit = some (Exit.terminated e)) ∧
    (remoteCallFails w = true → ∃ e, (main fuel w).exit = some (Exit.terminated e)) := by
  have hloop := waitLoop_of_waitEndsAt w n fuel ⟨hpresent, habsent⟩ hfuel
  have hmain := main_of_done w fuel _ hloop
  refine ⟨?_, ?_, ?_⟩
  · intro hget
    rw [hmain, wasHostBooting_sentinel w hget]
  · intro stage hget hne hrec hcreate
    rw [hmain, wasHostBooting_other w stage hget hne, createErrorLog_ok w hrec hcreate]
  · rw [hmain]
    cases hg : w.getReply with
    | error e =>
      cases hs : e.type.isSdbusplus with
      | true =>
        rw [wasHostBooting_sdbusplus w e hg hs]
        simp [noFailure, remoteCallFails, hg]
      | false =>
        rw [wasHostBooting_other_failure w e hg hs]
        simp [noFailure, remoteCallFails, hg, hs]
    | ok stage =>
      by_cases hst :
          stage = "xyz.openbmc_project.State.Boot.Progress.ProgressStages.Unspecified"
      · subst hst
        rw [wasHostBooting_sentinel w hg]
        simp [noFailure, remoteCallFails, hg]
      · rw [wasHostBooting_other w stage hg hst]
        cases hr : w.recordFailure with
        | some x =>
          rw [createErrorLog_recordFailure w x hr]
          cases hx : x.type.isSdbusplus <;>
            simp [noFailure, remoteCallFails, hg, hst, hr]
        | none =>
          cases hc : w.createReply with
          | ok u =>
            rw [createErrorLog_ok w hr hc]
            simp [noFailure, remoteCallFails, hg, hst, hr, hc]
          | error x =>
            cases hx : x.type.isSdbusplus with
            | true =>
              rw [createErrorLog_sdbusplus w x hr hc hx]
              simp [noFailure, remoteCallFails, hg, hst, hr, hc]
            | false =>
              rw [createErrorLog_other_failure w x hr hc hx]
              simp [noFailure, remoteCallFails, hg, hst, hr, hc, hx]

/-- C8, amended, at a run where nothing fails. -/
theorem main_returns_zero_iff_no_failure_witness :
    ((main 3 wBooting).exit = some (Exit.returned 0) ↔ noFailure wBooting = true) ∧
    noFailure wBooting = true :=
  ⟨(main_returns_zero_iff_no_failure wBooting 2 3 (by decide) (by decide) (by decide)).2.2.1,
    by decide⟩

/-- C9, as stated, fails: when the logging service cannot be reached, the error
that `createErrorLog` raises has dynamic type `std::runtime_error`. -/
theorem createErrorLog_raises_runtime_error :
    ¬ (∀ x : Exception, (createErrorLog wSinkDown).2 = Except.error x →
        x.type ≠ ExcType.std_runtime_error) := by
  intro h
  exact h (runtime_error "Error in invoking D-Bus logging create interface") (by decide) rfl

/-- C9, amended: on a remote Create-call failure the error that `createErrorLog`
raises is a `std::runtime_error` with the fixed message
`Error in invoking D-Bus logging create interface`, and it is a different
error from the remote-call failure that was caught. -/
theorem createErrorLog_runtime_error_on_create_failure (w : World) (e : Exception)
    (hrec : w.recordFailure = none) (hcreate : w.createReply = Except.error e)
    (hs : e.type.isSdbusplus = true) :
    (createErrorLog w).2 =
      Except.error { type := ExcType.std_runtime_error,
                     what := "Error in invoking D-Bus logging create interface" } ∧
    e.type ≠ ExcType.std_runtime_error ∧
    e ≠ { type := ExcType.std_runtime_error,
          what := "Error in invoking D-Bus logging create interface" } := by
  have hne : e.type ≠ ExcType.std_runtime_error := by
    intro h
    rw [h] at hs
    simp [ExcType.isSdbusplus] at hs
  refine ⟨?_, hne, ?_⟩
  · rw [createErrorLog_sdbusplus w e hrec hcreate hs]
    rfl
  · intro h
    rw [h] at hne
    exact hne rfl

/-- C9, amended, at a run where the logging service is unknown on the bus. -/
theorem createErrorLog_runtime_error_on_create_failure_witness :
    (createErrorLog wSinkDown).2 =
      Except.error { type := ExcType.std_runtime_error,
                     what := "Error in invoking D-Bus logging create interface" } ∧
    sdBusError "sd_bus_call: org.freedesktop.DBus.Error.ServiceUnknown" ≠
      { type := ExcType.std_runtime_error,
        what := "Error in invoking D-Bus logging create interface" } :=
  have h := createErrorLog_runtime_error_on_create_failure wSinkDown
    (sdBusError "sd_bus_call: org.freedesktop.DBus.Error.ServiceUnknown") rfl rfl rfl
  ⟨h.1, h.2.2⟩

end HostResetRecovery
